import Mathlib

/-!
Verification development for the Nichirin chat backend (`app.py`).

The development shallowly embeds the three components the specification
describes: the predefined-answer matcher (`match_predefined_answer`),
the Gemini response normalizer (`_extract_text_from_gemini_response`)
and the `/api/chat` request handler (`chat`).

Python run-time values reachable in these functions are modelled by the
inductive type `PyVal`; Python code that can raise is modelled in the
`Except` monad; the external generation client and its similarity
library are treated as opaque parameters, exactly as the specification
treats them (external collaborators).
-/

set_option maxRecDepth 100000

/-- Model of the Python values that can flow through the handler and the
normalizer: `None`, strings, integers, lists, dicts with string keys
(JSON objects), and objects carrying a set of attributes together with
the string produced by `str()` on them. -/
inductive PyVal where
  | none : PyVal
  | str : String → PyVal
  | int : Int → PyVal
  | list : List PyVal → PyVal
  | dict : List (String × PyVal) → PyVal
  | obj : List (String × PyVal) → String → PyVal

/-- Python truthiness of a `PyVal` (`bool(v)`). -/
def pyTruthy : PyVal → Bool
  | PyVal.none => false
  | PyVal.str s => !s.isEmpty
  | PyVal.int n => n != 0
  | PyVal.list xs => !xs.isEmpty
  | PyVal.dict d => !d.isEmpty
  | PyVal.obj _ _ => true

/-- Python `a or b`: `a` if truthy, else `b`. -/
def pyOr (a b : PyVal) : PyVal := if pyTruthy a then a else b

/-- `getattr(v, name)` when it exists: only objects expose attributes
with the names probed by the normalizer. -/
def getattrOpt (v : PyVal) (name : String) : Option PyVal :=
  match v with
  | PyVal.obj attrs _ => (attrs.find? (fun p => p.1 == name)).map Prod.snd
  | _ => Option.none

/-- `getattr(v, name, dflt)`. -/
def getattrD (v : PyVal) (name : String) (dflt : PyVal) : PyVal :=
  (getattrOpt v name).getD dflt

/-- `d.get(k)` on a dict: the value under `k`, or `None`. -/
def dictGet (d : List (String × PyVal)) (k : String) : PyVal :=
  ((d.find? (fun p => p.1 == k)).map Prod.snd).getD PyVal.none

mutual

/-- Python `repr` of a modelled value (string escaping is not modelled;
objects render through their stored `str()` text). -/
def pyRepr : PyVal → String
  | PyVal.none => "None"
  | PyVal.str s => "\x27" ++ s ++ "\x27"
  | PyVal.int n => toString n
  | PyVal.list xs => "[" ++ pyReprItems xs ++ "]"
  | PyVal.dict d => "\x7b" ++ pyReprEntries d ++ "\x7d"
  | PyVal.obj _ s => s

/-- Comma-separated `repr`s of list items. -/
def pyReprItems : List PyVal → String
  | [] => ""
  | [x] => pyRepr x
  | x :: y :: t => pyRepr x ++ ", " ++ pyReprItems (y :: t)

/-- Comma-separated `repr`s of dict entries. -/
def pyReprEntries : List (String × PyVal) → String
  | [] => ""
  | [(k, v)] => "\x27" ++ k ++ "\x27: " ++ pyRepr v
  | (k, v) :: e :: t => "\x27" ++ k ++ "\x27: " ++ pyRepr v ++ ", " ++ pyReprEntries (e :: t)

end

/-- Python `str(v)`. -/
def pyStr : PyVal → String
  | PyVal.str s => s
  | v => pyRepr v

/-- The whitespace set stripped by Python `str.strip()`. -/
def isPySpace (c : Char) : Bool :=
  c == ' ' || c == '\t' || c == '\n' || c == '\r' || c == '\x0b' || c == '\x0c'

/-- Python `s.strip()`: drop leading and trailing whitespace. -/
def pyStrip (s : String) : String :=
  String.mk (((s.data.dropWhile isPySpace).reverse.dropWhile isPySpace).reverse)

/-- Python `" ".join(p for p in ps if p)`: keep the truthy parts; joining
raises `TypeError` (modelled as `Except.error ()`) when some kept part is
not a string. -/
def pyJoinSpace (ps : List PyVal) : Except Unit String :=
  let ts := ps.filter pyTruthy
  if ts.all (fun p => match p with | PyVal.str _ => true | _ => false) then
    Except.ok (String.intercalate " " (ts.map (fun p => match p with | PyVal.str s => s | _ => "")))
  else Except.error ()

/-- One candidate's contribution in the `candidates` branch of the
normalizer: `c.get("content") or c.get("text") or ""` for dicts, the
`getattr` analogue otherwise. -/
def candidatePart (c : PyVal) : PyVal :=
  match c with
  | PyVal.dict d => pyOr (dictGet d "content") (pyOr (dictGet d "text") (PyVal.str ""))
  | _ => pyOr (getattrD c "content" PyVal.none) (pyOr (getattrD c "text" PyVal.none) (PyVal.str ""))

/-- One nested content item's contribution in the `outputs` branch:
`item.get("text") or item.get("content") or ""` for dicts, `str(item)`
otherwise. -/
def itemPart (item : PyVal) : PyVal :=
  match item with
  | PyVal.dict d => pyOr (dictGet d "text") (pyOr (dictGet d "content") (PyVal.str ""))
  | _ => PyVal.str (pyStr item)

/-- The contributions of one element of `outputs`: a dict with a list
under `"content"` contributes its items, any other dict contributes
`out.get("text") or out.get("content") or ""`, a non-dict contributes
the `getattr` analogue. -/
def outputParts (out : PyVal) : List PyVal :=
  match out with
  | PyVal.dict d =>
    match (d.find? (fun p => p.1 == "content")).map Prod.snd with
    | some (PyVal.list items) => items.map itemPart
    | _ => [pyOr (dictGet d "text") (pyOr (dictGet d "content") (PyVal.str ""))]
  | _ => [pyOr (getattrD out "text" PyVal.none) (pyOr (getattrD out "content" PyVal.none) (PyVal.str ""))]

/-- One probe of lines 137-140 of `app.py`: `val = response.get(key)`,
returned stripped when it is a string whose strip is truthy. -/
def tryKeyStr (d : List (String × PyVal)) (k : String) : Option String :=
  match dictGet d k with
  | PyVal.str s => if pyStrip s == "" then Option.none else some (pyStrip s)
  | _ => Option.none

/-- Lines 136-141 of `app.py`: probe a plain dict for the first of
`"text"`, `"reply"`, `"content"` holding a non-blank string. -/
def pickDictStr (d : List (String × PyVal)) : Option String :=
  match tryKeyStr d "text" with
  | some s => some s
  | Option.none =>
    match tryKeyStr d "reply" with
    | some s => some s
    | Option.none => tryKeyStr d "content"

/-- Line 141 of `app.py`: `str(response).strip() or ""`. -/
def finalFallback (v : PyVal) : String :=
  let s := pyStrip (pyStr v)
  if s == "" then "" else s

/-- Lines 136-141 of `app.py`: the dict probe followed by the trimmed
whole-value string conversion; this stage cannot raise. -/
def extractStage4 (v : PyVal) : String :=
  match v with
  | PyVal.dict d =>
    match pickDictStr d with
    | some s => s
    | Option.none => finalFallback v
  | _ => finalFallback v

/-- Lines 116-141 of `app.py`: the `outputs` branch. Its body sits in an
inner `try` whose `except` falls through to stage 4, so a join error here
is absorbed. -/
def extractB3 (v : PyVal) : Except Unit String :=
  match getattrOpt v "outputs" with
  | some (PyVal.list outs) =>
    match pyJoinSpace ((outs.map outputParts).flatten) with
    | Except.ok s => Except.ok (pyStrip s)
    | Except.error _ => Except.ok (extractStage4 v)
  | _ => Except.ok (extractStage4 v)

/-- Lines 106-115 of `app.py`: the `candidates` branch. A join error here
propagates (only the outer `try` catches it). -/
def extractB2 (v : PyVal) : Except Unit String :=
  match getattrOpt v "candidates" with
  | some (PyVal.list cs) =>
    if cs.isEmpty then extractB3 v
    else (pyJoinSpace (cs.map candidatePart)).map pyStrip
  | _ => extractB3 v

/-- Body of `_extract_text_from_gemini_response` (the code inside the
outer `try`), lines 103-141 of `app.py`. -/
def extractBody (v : PyVal) : Except Unit String :=
  match getattrOpt v "text" with
  | some (PyVal.str s) => Except.ok (pyStrip s)
  | _ => extractB2 v

/-- `_extract_text_from_gemini_response`: run the body; the outer
`except` catches any error and returns `str(response)` (line 144,
unstripped). -/
def extract_text (v : PyVal) : String :=
  match extractBody v with
  | Except.ok s => s
  | Except.error _ => pyStr v

/-- The canned-answer table `PREDEFINED_ANSWERS` of `app.py`, in its
definition (= iteration) order. -/
def PREDEFINED_ANSWERS : List (String × String) := [
  ("life story",
    "I grew up fascinated by how technology connects people. My journey began with curiosity about automation and intelligence, and I evolved into an assistant designed to simplify learning and creativity."),
  ("superpower",
    "My superpower is clarity — I can take complex ideas and make them simple, helping people grasp even the trickiest concepts effortlessly."),
  ("grow",
    "First, emotional understanding — I aim to read context better. Second, creative storytelling — to make learning inspiring. Third, adaptability — to learn faster from real conversations."),
  ("misconception",
    "People sometimes think I’m just logical or emotionless. Actually, I’m built to understand empathy, tone, and subtle meaning too."),
  ("boundaries",
    "I push my limits by handling increasingly complex questions and refining how I think. Growth, to me, means helping others go further than they expected.")]

/-- `PREDEFINED_ANSWERS.keys()` in iteration order. -/
def predefKeys : List String := PREDEFINED_ANSWERS.map Prod.fst

/-- `PREDEFINED_ANSWERS[k]` as an `Option` (`None` on the impossible
`KeyError`). -/
def lookupAnswer (k : String) : Option String :=
  (PREDEFINED_ANSWERS.find? (fun p => p.1 == k)).map Prod.snd

/-- ASCII lowering of one character, the fragment of Python `str.lower`
relevant to the ASCII canned-answer keys. -/
def asciiLowerChar (c : Char) : Char :=
  if 'A' ≤ c ∧ c ≤ 'Z' then Char.ofNat (c.toNat + 32) else c

/-- Python `message.lower()` (ASCII fragment). -/
def pyLower (s : String) : String := String.mk (s.data.map asciiLowerChar)

/-- Contiguous-substring test on character lists: `n` occurs inside `h`. -/
def isSubstrList (n : List Char) : List Char → Bool
  | [] => n.isEmpty
  | c :: t => n.isPrefixOf (c :: t) || isSubstrList n t

/-- Python `needle in hay` on strings. -/
def isSubstrB (needle hay : String) : Bool := isSubstrList needle.data hay.data

/-- The similarity loop of `match_predefined_answer` (lines 90-95 of
`app.py`): fold the keys, keeping the strictly best `(best_key,
best_score)` pair seen so far; `r` stands for
`SequenceMatcher(None, m, key).ratio()`. -/
def fuzzyBest (r : String → String → ℚ) (m : String) :
    List String → Option String × ℚ → Option String × ℚ
  | [], acc => acc
  | k :: ks, (bk, bs) =>
    let ratio := r m k
    if bs < ratio then fuzzyBest r m ks (some k, ratio)
    else fuzzyBest r m ks (bk, bs)

/-- `match_predefined_answer` of `app.py`, parameterized by the
similarity-ratio function `r` of the external `difflib` collaborator. -/
def match_predefined_answer (r : String → String → ℚ) (message : String) : Option String :=
  if message = "" then Option.none
  else
    let m := pyLower message
    match predefKeys.find? (fun k => isSubstrB k m) with
    | some k => lookupAnswer k
    | Option.none =>
      let best := fuzzyBest r m predefKeys (Option.none, 0)
      if mkRat 11 20 ≤ best.2 then
        match best.1 with
        | some k => if k = "" then Option.none else lookupAnswer k
        | Option.none => Option.none
      else Option.none

/-- Outcome of the input-parsing stage of `chat` (lines 168-184 of
`app.py`): a client error because neither field is present, an extracted
(already stripped, possibly empty) user message, or an uncaught
`AttributeError` from calling `.strip()` on a non-string. -/
inductive ParseOut where
  | noField : ParseOut
  | msg : String → ParseOut
  | raise : ParseOut
deriving DecidableEq

/-- Line 181 of `app.py`:
`last.get("content") or last.get("message") or last.get("text") or ""`. -/
def orChain (last : List (String × PyVal)) : PyVal :=
  pyOr (dictGet last "content")
    (pyOr (dictGet last "message") (pyOr (dictGet last "text") (PyVal.str "")))

/-- Lines 168-184 of `app.py`: extract `user_message` from the parsed
JSON object. -/
def parse_user_message (data : List (String × PyVal)) : ParseOut :=
  match List.lookup "message" data with
  | some (PyVal.str s) => ParseOut.msg (pyStrip s)
  | _ =>
    match List.lookup "messages" data with
    | some msgs =>
      match msgs with
      | PyVal.str s => ParseOut.msg (pyStrip s)
      | PyVal.list xs =>
        match xs.getLast? with
        | some (PyVal.str s) => ParseOut.msg (pyStrip s)
        | some (PyVal.dict d) =>
          (match orChain d with
           | PyVal.str s => ParseOut.msg (pyStrip s)
           | _ => ParseOut.raise)
        | _ => ParseOut.msg ""
      | _ => ParseOut.msg ""
    | Option.none => ParseOut.noField

/-- An HTTP response of the handler: status code and JSON-object body. -/
structure ChatResp where
  status : Nat
  body : List (String × String)
deriving DecidableEq

/-- Line 196 onward: the fixed reply sent when no Gemini client is
configured (lines 201-205 of `app.py`). -/
def GEMINI_NOT_CONFIGURED_MSG : String :=
  "Gemini backend is not configured on this server. I can still answer a set of predefined questions. For other queries, please configure GEMINI_API_KEY on the server."

/-- Lines 228-231: the substitute for an empty normalized reply. -/
def EMPTY_RESPONSE_MSG : String :=
  "Received an empty response from the language model. Please check the model configuration or the API key."

/-- Lines 196-236 of `app.py`: the model stage of `chat`, reached when no
canned answer fired. `client` is the process-wide optional client handle;
`gen` is the outcome of the external generation call (`Except.error e`
models an exception with message `e`). -/
def chatModel (client : Option Unit) (gen : Except String PyVal) : Except Unit ChatResp :=
  match client with
  | Option.none => Except.ok ⟨200, [("reply", GEMINI_NOT_CONFIGURED_MSG)]⟩
  | some _ =>
    match gen with
    | Except.error e => Except.ok ⟨500, [("error", "Gemini error: " ++ e)]⟩
    | Except.ok resp =>
      let t := extract_text resp
      let t := if t = "" then EMPTY_RESPONSE_MSG else t
      Except.ok ⟨200, [("reply", t)]⟩

/-- The `/api/chat` handler (lines 162-236 of `app.py`). `data` is the
result of `request.get_json(silent=True)` restricted to JSON objects
(`Option.none` models an unparseable body); an `Except.error ()` result
models an exception escaping the handler. -/
def chat (r : String → String → ℚ) (client : Option Unit) (gen : Except String PyVal)
    (data : Option (List (String × PyVal))) : Except Unit ChatResp :=
  match data with
  | Option.none => Except.ok ⟨400, [("error", "No JSON body provided")]⟩
  | some [] => Except.ok ⟨400, [("error", "No JSON body provided")]⟩
  | some d =>
    match parse_user_message d with
    | ParseOut.raise => Except.error ()
    | ParseOut.noField =>
      Except.ok ⟨400, [("error", "No \x27message\x27 or \x27messages\x27 provided")]⟩
    | ParseOut.msg m =>
      if m = "" then Except.ok ⟨400, [("error", "Empty message provided")]⟩
      else
        match match_predefined_answer r m with
        | some a => if a = "" then chatModel client gen else Except.ok ⟨200, [("reply", a)]⟩
        | Option.none => chatModel client gen

/-! ### Trimming: helper lemmas about `pyStrip` -/

/-- The character-list form of `pyStrip`. -/
def stripList (l : List Char) : List Char :=
  List.rdropWhile isPySpace (List.dropWhile isPySpace l)

theorem pyStrip_eq_stripList (s : String) : pyStrip s = String.mk (stripList s.data) := rfl

theorem dropWhile_rdropWhile_dropWhile (p : Char → Bool) (l : List Char) :
    List.dropWhile p (List.rdropWhile p (List.dropWhile p l)) =
      List.rdropWhile p (List.dropWhile p l) := by
  rcases hx : List.rdropWhile p (List.dropWhile p l) with _ | ⟨a, t⟩
  · simp
  · have hpre : (a :: t) <+: List.dropWhile p l :=
      hx ▸ List.rdropWhile_prefix p (List.dropWhile p l)
    obtain ⟨rest, hr⟩ := hpre
    have ha : p a = false := by
      have h2 : List.dropWhile p (List.dropWhile p l) = List.dropWhile p l :=
        List.dropWhile_idempotent p l
      rw [← hr, List.cons_append, List.dropWhile_cons] at h2
      by_cases hpa : p a = true
      · rw [if_pos hpa] at h2
        have hlen := congrArg List.length h2
        have hle := (List.dropWhile_sublist (l := t ++ rest) p).length_le
        simp only [List.length_cons] at hlen
        omega
      · simpa using hpa
    rw [List.dropWhile_cons, ha]
    simp

theorem stripList_idem (l : List Char) : stripList (stripList l) = stripList l := by
  unfold stripList
  rw [dropWhile_rdropWhile_dropWhile, List.rdropWhile_idempotent]

/-- `str.strip()` is idempotent: a stripped string is trimmed. -/
theorem pyStrip_idem (s : String) : pyStrip (pyStrip s) = pyStrip s := by
  rw [pyStrip_eq_stripList s, pyStrip_eq_stripList,
    show (String.mk (stripList s.data)).data = stripList s.data from rfl, stripList_idem]

theorem pyStrip_empty : pyStrip "" = "" := rfl

theorem except_map_ok {ε α β : Type} {e : Except ε α} {f : α → β} {b : β}
    (h : Except.map f e = Except.ok b) : ∃ a, e = Except.ok a ∧ b = f a := by
  cases e with
  | error u => exact Except.noConfusion h
  | ok a => exact ⟨a, rfl, (Except.ok.inj h).symm⟩

/-! ### The normalizer returns trimmed strings on every successful path -/

theorem tryKeyStr_trimmed (d : List (String × PyVal)) (k s : String)
    (h : tryKeyStr d k = some s) : pyStrip s = s := by
  unfold tryKeyStr at h
  split at h
  all_goals try exact Option.noConfusion h
  split at h
  · exact Option.noConfusion h
  · rw [← Option.some.inj h]
    exact pyStrip_idem _

theorem pickDictStr_trimmed (d : List (String × PyVal)) (s : String)
    (h : pickDictStr d = some s) : pyStrip s = s := by
  unfold pickDictStr at h
  split at h
  · rename_i s0 h0
    rw [← Option.some.inj h]
    exact tryKeyStr_trimmed _ _ _ h0
  · split at h
    · rename_i s0 h0
      rw [← Option.some.inj h]
      exact tryKeyStr_trimmed _ _ _ h0
    · exact tryKeyStr_trimmed _ _ _ h

theorem finalFallback_trimmed (v : PyVal) : pyStrip (finalFallback v) = finalFallback v := by
  simp only [finalFallback]
  split
  · exact pyStrip_empty
  · exact pyStrip_idem _

theorem extractStage4_trimmed (v : PyVal) : pyStrip (extractStage4 v) = extractStage4 v := by
  cases v
  case dict d =>
    rcases hp : pickDictStr d with _ | s
    · have he : extractStage4 (PyVal.dict d) = finalFallback (PyVal.dict d) := by
        simp only [extractStage4]; rw [hp]
      rw [he]; exact finalFallback_trimmed _
    · have he : extractStage4 (PyVal.dict d) = s := by
        simp only [extractStage4]; rw [hp]
      rw [he]; exact pickDictStr_trimmed d s hp
  all_goals exact finalFallback_trimmed _

theorem extractB3_ok_trimmed (v : PyVal) (s : String)
    (h : extractB3 v = Except.ok s) : pyStrip s = s := by
  unfold extractB3 at h
  split at h
  all_goals try (rw [← Except.ok.inj h]; exact extractStage4_trimmed _)
  split at h
  · rw [← Except.ok.inj h]; exact pyStrip_idem _
  · rw [← Except.ok.inj h]; exact extractStage4_trimmed _

theorem extractB2_ok_trimmed (v : PyVal) (s : String)
    (h : extractB2 v = Except.ok s) : pyStrip s = s := by
  unfold extractB2 at h
  split at h
  all_goals try exact extractB3_ok_trimmed _ _ h
  split at h
  · exact extractB3_ok_trimmed _ _ h
  · obtain ⟨t, _, rfl⟩ := except_map_ok h
    exact pyStrip_idem t

theorem extractBody_ok_trimmed (v : PyVal) (s : String)
    (h : extractBody v = Except.ok s) : pyStrip s = s := by
  unfold extractBody at h
  split at h
  all_goals try exact extractB2_ok_trimmed _ _ h
  rw [← Except.ok.inj h]
  exact pyStrip_idem _

/-- C4: `_extract_text_from_gemini_response` never raises and always
returns a string: for every modelled input value, either the extraction
body succeeds and its string is returned, or the body raises and the
outer handler catches the error, falling back to string-converting the
whole value (`str(response)`) instead of propagating. Totality of
`extract_text : PyVal → String` is the never-raises guarantee. -/
theorem extract_text_never_raises (v : PyVal) :
    (∃ s : String, extractBody v = Except.ok s ∧ extract_text v = s) ∨
      (extractBody v = Except.error () ∧ extract_text v = pyStr v) := by
  rcases hb : extractBody v with u | s
  · cases u
    exact Or.inr ⟨rfl, by unfold extract_text; rw [hb]⟩
  · exact Or.inl ⟨s, rfl, by unfold extract_text; rw [hb]⟩

/-- C5 counterexample: a response object whose `candidates` extraction
raises (the parts list holds a truthy non-string, so `" ".join` raises
`TypeError`) reaches the outer `except`, which returns `str(response)`
WITHOUT stripping (line 144 of `app.py`); with `str()` text `" x "` the
result keeps its surrounding whitespace, refuting the claim that every
returned string is trimmed. -/
theorem extract_text_fallback_untrimmed :
    extract_text
        (PyVal.obj [("candidates", PyVal.list [PyVal.dict [("content", PyVal.list [PyVal.int 1])]])]
          " x ")
      = " x " ∧
      pyStrip " x " ≠ " x " := ⟨rfl, by decide⟩

/-- C5 (amended): on every path on which the extraction body succeeds —
that is, every path except the outer exception fallback of line 144 —
the string returned by `_extract_text_from_gemini_response` is trimmed
(stripping it again changes nothing); the exception fallback returns
`str(response)` unstripped and may carry edge whitespace. -/
theorem extract_text_ok_trimmed (v : PyVal) (s : String)
    (h : extractBody v = Except.ok s) : pyStrip (extract_text v) = extract_text v := by
  have he : extract_text v = s := by unfold extract_text; rw [h]
  rw [he]
  exact extractBody_ok_trimmed v s h

/-- Witness for the amended C5 theorem at a concrete input: the direct
string input `" hi "` extracts (via the final fallback of line 141) to
the trimmed `"hi"`. -/
theorem extract_text_ok_trimmed_witness :
    pyStrip (extract_text (PyVal.str " hi ")) = extract_text (PyVal.str " hi ") :=
  extract_text_ok_trimmed (PyVal.str " hi ") "hi" rfl

/-! ### The matcher: substring pass and fuzzy pass -/

theorem foldl_max_init_le (g : String → ℚ) :
    ∀ (l : List String) (b : ℚ), b ≤ l.foldl (fun s k => max s (g k)) b := by
  intro l
  induction l with
  | nil => intro b; exact le_refl b
  | cons k t ih =>
    intro b
    rw [List.foldl_cons]
    exact le_trans (le_max_left _ _) (ih _)

theorem foldl_max_mem_le (g : String → ℚ) :
    ∀ (l : List String) (b : ℚ) (k : String), k ∈ l →
      g k ≤ l.foldl (fun s j => max s (g j)) b := by
  intro l
  induction l with
  | nil => intro b k hk; cases hk
  | cons a t ih =>
    intro b k hk
    rw [List.foldl_cons]
    rcases List.mem_cons.mp hk with h | h
    · subst h
      exact le_trans (le_max_right _ _) (foldl_max_init_le g t _)
    · exact ih _ k h

theorem foldl_max_le (g : String → ℚ) (M : ℚ) :
    ∀ (l : List String) (b : ℚ), b ≤ M → (∀ k ∈ l, g k ≤ M) →
      l.foldl (fun s j => max s (g j)) b ≤ M := by
  intro l
  induction l with
  | nil => intro b hb _; simpa using hb
  | cons a t ih =>
    intro b hb hall
    rw [List.foldl_cons]
    exact ih _ (max_le hb (hall a (List.mem_cons_self a t)))
      (fun k hk => hall k (List.mem_cons_of_mem a hk))

/-- Closed form of the strictly-greater best-score loop: the final score
is the running maximum, and the final key is the first key attaining it
whenever some key strictly exceeded the initial score. -/
theorem fuzzyBest_eq (r : String → String → ℚ) (m : String) :
    ∀ (l : List String) (bk0 : Option String) (b0 : ℚ),
      fuzzyBest r m l (bk0, b0) =
        ((if b0 < l.foldl (fun s j => max s (r m j)) b0 then
            l.find? (fun j => decide (r m j = l.foldl (fun s j => max s (r m j)) b0))
          else bk0),
          l.foldl (fun s j => max s (r m j)) b0) := by
  intro l
  induction l with
  | nil =>
    intro bk0 b0
    simp [fuzzyBest]
  | cons k t ih =>
    intro bk0 b0
    rw [List.foldl_cons,
      show fuzzyBest r m (k :: t) (bk0, b0)
        = (if b0 < r m k then fuzzyBest r m t (some k, r m k)
           else fuzzyBest r m t (bk0, b0)) from rfl]
    by_cases hb : b0 < r m k
    · rw [if_pos hb, ih, max_eq_right (le_of_lt hb)]
      have hM : r m k ≤ t.foldl (fun s j => max s (r m j)) (r m k) := foldl_max_init_le _ t _
      have hbM : b0 < t.foldl (fun s j => max s (r m j)) (r m k) := lt_of_lt_of_le hb hM
      rw [if_pos hbM]
      by_cases he : r m k = t.foldl (fun s j => max s (r m j)) (r m k)
      · have hfind :
            List.find? (fun j => decide (r m j = t.foldl (fun s j => max s (r m j)) (r m k)))
              (k :: t) = some k :=
          List.find?_cons_of_pos t (decide_eq_true he)
        rw [if_neg (not_lt.mpr he.ge), hfind]
      · have hfind :
            List.find? (fun j => decide (r m j = t.foldl (fun s j => max s (r m j)) (r m k)))
              (k :: t)
            = List.find? (fun j => decide (r m j = t.foldl (fun s j => max s (r m j)) (r m k))) t :=
          List.find?_cons_of_neg t (by simpa using he)
        rw [if_pos (lt_of_le_of_ne hM he), hfind]
    · rw [if_neg hb, ih, max_eq_left (not_lt.mp hb)]
      by_cases hbM : b0 < t.foldl (fun s j => max s (r m j)) b0
      · rw [if_pos hbM, if_pos hbM]
        have hne : ¬(r m k = t.foldl (fun s j => max s (r m j)) b0) := by
          intro he
          rw [← he] at hbM
          exact hb hbM
        have hfind :
            List.find? (fun j => decide (r m j = t.foldl (fun s j => max s (r m j)) b0)) (k :: t)
            = List.find? (fun j => decide (r m j = t.foldl (fun s j => max s (r m j)) b0)) t :=
          List.find?_cons_of_neg t (by simpa using hne)
        rw [hfind]
      · rw [if_neg hbM, if_neg hbM]

/-- Every canned answer actually stored in the table is non-empty, hence
truthy for the `if static_reply:` test of the handler. -/
theorem lookupAnswer_ne_empty (k a : String) (h : lookupAnswer k = some a) : a ≠ "" := by
  unfold lookupAnswer at h
  obtain ⟨p, hp, hpa⟩ := Option.map_eq_some'.mp h
  have hmem := List.mem_of_find?_eq_some hp
  have hvals : ∀ q ∈ PREDEFINED_ANSWERS, ¬(q.2 = "") := by decide
  intro he
  exact hvals p hmem (hpa.trans he)

/-- C3: whenever the lowercased input contains some canned-answer key as
a substring, `match_predefined_answer` returns the answer of the first
such key in table order (`find?` order), for EVERY similarity function
`r` — the similarity pass is never consulted. -/
theorem match_predefined_answer_substring (r : String → String → ℚ) (msg k : String)
    (hk : predefKeys.find? (fun j => isSubstrB j (pyLower msg)) = some k) :
    ∃ a, lookupAnswer k = some a ∧ match_predefined_answer r msg = some a := by
  have hmem : k ∈ predefKeys := List.mem_of_find?_eq_some hk
  have hne : msg ≠ "" := by
    intro h
    subst h
    have hnone : predefKeys.find? (fun j => isSubstrB j (pyLower "")) = Option.none := by decide
    rw [hnone] at hk
    exact Option.noConfusion hk
  have hsome : ∀ j ∈ predefKeys, (lookupAnswer j).isSome = true := by decide
  obtain ⟨a, ha⟩ := Option.isSome_iff_exists.mp (hsome k hmem)
  refine ⟨a, ha, ?_⟩
  simp only [match_predefined_answer, if_neg hne, hk]
  exact ha

/-- Witness for C3: the input of the spec's end-to-end example (up to
case) hits the `"life story"` key by substring containment. -/
theorem match_predefined_answer_substring_witness :
    ∃ a, lookupAnswer "life story" = some a ∧
      match_predefined_answer (fun _ _ => 0) "Tell me about your LIFE story" = some a :=
  match_predefined_answer_substring (fun _ _ => 0) "Tell me about your LIFE story" "life story"
    (by decide)

/-- C2: on a non-empty input with no substring hit, the matcher returns
the answer of the first key (in table order) attaining the maximum
similarity ratio `M` to the lowercased input when `M ≥ 0.55`, and `None`
otherwise — for every (nonnegative, as ratios are) similarity function
`r` of the external `difflib` collaborator. -/
theorem match_predefined_answer_fuzzy (r : String → String → ℚ) (msg : String) (M : ℚ)
    (hne : msg ≠ "")
    (hnosub : ∀ k ∈ predefKeys, isSubstrB k (pyLower msg) = false)
    (hnn : ∀ k ∈ predefKeys, 0 ≤ r (pyLower msg) k)
    (hmem : ∃ k ∈ predefKeys, r (pyLower msg) k = M)
    (hub : ∀ k ∈ predefKeys, r (pyLower msg) k ≤ M) :
    match_predefined_answer r msg =
      if mkRat 11 20 ≤ M then
        (predefKeys.find? (fun k => decide (r (pyLower msg) k = M))).bind lookupAnswer
      else Option.none := by
  obtain ⟨k0, hk0mem, hk0⟩ := hmem
  have hM0 : (0 : ℚ) ≤ M := hk0 ▸ hnn k0 hk0mem
  have hfind : predefKeys.find? (fun k => isSubstrB k (pyLower msg)) = Option.none :=
    List.find?_eq_none.mpr (fun k hk => by simp [hnosub k hk])
  have hfold : predefKeys.foldl (fun s j => max s (r (pyLower msg) j)) 0 = M := by
    apply le_antisymm
    · exact foldl_max_le _ M _ _ hM0 hub
    · exact hk0 ▸ foldl_max_mem_le _ _ _ k0 hk0mem
  simp only [match_predefined_answer, if_neg hne, hfind]
  rw [fuzzyBest_eq, hfold]
  by_cases hth : mkRat 11 20 ≤ M
  · rw [if_pos hth, if_pos hth, if_pos (lt_of_lt_of_le (by decide : (0:ℚ) < mkRat 11 20) hth)]
    have hex : (predefKeys.find? (fun k => decide (r (pyLower msg) k = M))).isSome := by
      exact List.find?_isSome.mpr ⟨k0, hk0mem, decide_eq_true hk0⟩
    obtain ⟨k1, hk1⟩ := Option.isSome_iff_exists.mp hex
    rw [hk1]
    have hk1mem : k1 ∈ predefKeys := List.mem_of_find?_eq_some hk1
    have hkeys : ∀ j ∈ predefKeys, ¬(j = "") := by decide
    show (if k1 = "" then Option.none else lookupAnswer k1) = (some k1).bind lookupAnswer
    rw [if_neg (hkeys k1 hk1mem)]
    rfl
  · rw [if_neg hth, if_neg hth]

/-- Witness for C2 at a concrete similarity function and input: with
ratios 3/5 for `"grow"` and 1/2 elsewhere on input `"hello"` (which
contains no key), the maximum 3/5 exceeds the 0.55 threshold and the
matcher returns the `"grow"` answer. -/
theorem match_predefined_answer_fuzzy_witness :
    match_predefined_answer (fun _ j => if j = "grow" then mkRat 3 5 else mkRat 1 2) "hello"
      = some (PREDEFINED_ANSWERS.get! 2).2 := by
  rw [match_predefined_answer_fuzzy (fun _ j => if j = "grow" then mkRat 3 5 else mkRat 1 2)
    "hello" (mkRat 3 5) (by decide) (by decide) (by decide) (by decide) (by decide)]
  decide

/-- A hit of the matcher is always a stored canned answer, hence
non-empty (truthy). -/
theorem match_predefined_answer_ne_empty (r : String → String → ℚ) (m a : String)
    (h : match_predefined_answer r m = some a) : a ≠ "" := by
  simp only [match_predefined_answer] at h
  split at h
  · exact Option.noConfusion h
  · split at h
    · exact lookupAnswer_ne_empty _ _ h
    · split at h
      · split at h
        · split at h
          · exact Option.noConfusion h
          · exact lookupAnswer_ne_empty _ _ h
        · exact Option.noConfusion h
      · exact Option.noConfusion h

/-! ### The request handler -/

/-- C1 counterexample: posting the empty JSON object `{}` does produce a
400 response, but its body is `{"error": "No JSON body provided"}` — the
empty dict is falsy, so `if not data:` (line 165) fires before the field
check — and not the claimed missing-field message. -/
theorem chat_empty_object_counterexample :
    chat (fun _ _ => 0) Option.none (Except.error "x") (some []) =
        Except.ok ⟨400, [("error", "No JSON body provided")]⟩ ∧
      "No JSON body provided" ≠ "No \x27message\x27 or \x27messages\x27 provided" :=
  ⟨rfl, by decide⟩

/-- C1 (amended): a POST whose body is the empty JSON object `{}` gets a
client-error (400) response whose body is exactly
`{"error": "No JSON body provided"}`, for every similarity function,
client configuration and generation outcome. -/
theorem chat_empty_object (r : String → String → ℚ) (client : Option Unit)
    (gen : Except String PyVal) :
    chat r client gen (some []) = Except.ok ⟨400, [("error", "No JSON body provided")]⟩ := rfl

/-- C6: whenever the parsed user message is non-empty and the matcher
hits, the handler replies 200 with the canned answer, independently of
the client configuration and of the external generation outcome — the
external call is never made. -/
theorem chat_static_reply (r : String → String → ℚ) (client : Option Unit)
    (gen : Except String PyVal) (d : List (String × PyVal)) (m a : String)
    (hparse : parse_user_message d = ParseOut.msg m) (hm : m ≠ "")
    (hmatch : match_predefined_answer r m = some a) :
    chat r client gen (some d) = Except.ok ⟨200, [("reply", a)]⟩ := by
  have hane : a ≠ "" := match_predefined_answer_ne_empty r m a hmatch
  cases d with
  | nil =>
    rw [show parse_user_message [] = ParseOut.noField from rfl] at hparse
    exact ParseOut.noConfusion hparse
  | cons hd tl =>
    show (match parse_user_message (hd :: tl) with
      | ParseOut.raise => Except.error ()
      | ParseOut.noField =>
        Except.ok ⟨400, [("error", "No \x27message\x27 or \x27messages\x27 provided")]⟩
      | ParseOut.msg m =>
        if m = "" then Except.ok ⟨400, [("error", "Empty message provided")]⟩
        else
          match match_predefined_answer r m with
          | some a => if a = "" then chatModel client gen else Except.ok ⟨200, [("reply", a)]⟩
          | Option.none => chatModel client gen) = Except.ok ⟨200, [("reply", a)]⟩
    rw [hparse]
    show (if m = "" then _ else _) = _
    rw [if_neg hm, hmatch]
    show (if a = "" then _ else _) = _
    rw [if_neg hane]

/-- Witness for C6: the spec's end-to-end example message; the handler
returns the life-story canned reply although the generation outcome is
an error — the model is never invoked. -/
theorem chat_static_reply_witness :
    chat (fun _ _ => 0) Option.none (Except.error "boom")
        (some [("message", PyVal.str "tell me about your life story")]) =
      Except.ok ⟨200, [("reply", (PREDEFINED_ANSWERS.get! 0).2)]⟩ :=
  chat_static_reply (fun _ _ => 0) Option.none (Except.error "boom")
    [("message", PyVal.str "tell me about your life story")]
    "tell me about your life story" (PREDEFINED_ANSWERS.get! 0).2
    (by decide) (by decide) (by decide)

/-- C7: with no client configured and no canned-answer hit on a parsed
non-empty message, the handler returns a 200 success response carrying
the fixed backend-not-configured explanatory reply. -/
theorem chat_unconfigured_fallback (r : String → String → ℚ) (gen : Except String PyVal)
    (d : List (String × PyVal)) (m : String)
    (hparse : parse_user_message d = ParseOut.msg m) (hm : m ≠ "")
    (hnomatch : match_predefined_answer r m = Option.none) :
    chat r Option.none gen (some d) = Except.ok ⟨200, [("reply", GEMINI_NOT_CONFIGURED_MSG)]⟩ := by
  cases d with
  | nil =>
    rw [show parse_user_message [] = ParseOut.noField from rfl] at hparse
    exact ParseOut.noConfusion hparse
  | cons hd tl =>
    show (match parse_user_message (hd :: tl) with
      | ParseOut.raise => Except.error ()
      | ParseOut.noField =>
        Except.ok ⟨400, [("error", "No \x27message\x27 or \x27messages\x27 provided")]⟩
      | ParseOut.msg m =>
        if m = "" then Except.ok ⟨400, [("error", "Empty message provided")]⟩
        else
          match match_predefined_answer r m with
          | some a =>
            if a = "" then chatModel Option.none gen else Except.ok ⟨200, [("reply", a)]⟩
          | Option.none => chatModel Option.none gen)
        = Except.ok ⟨200, [("reply", GEMINI_NOT_CONFIGURED_MSG)]⟩
    rw [hparse]
    show (if m = "" then _ else _) = _
    rw [if_neg hm, hnomatch]
    rfl

/-- Witness for C7: the spec's weather example with no configured
client. -/
theorem chat_unconfigured_fallback_witness :
    chat (fun _ _ => 0) Option.none (Except.error "boom")
        (some [("message", PyVal.str "what is the weather in Tokyo")]) =
      Except.ok ⟨200, [("reply", GEMINI_NOT_CONFIGURED_MSG)]⟩ :=
  chat_unconfigured_fallback (fun _ _ => 0) (Except.error "boom")
    [("message", PyVal.str "what is the weather in Tokyo")]
    "what is the weather in Tokyo" (by decide) (by decide) (by decide)

/-- C8: when the external generation call (or anything inside the `try`
of lines 211-233) raises with message `e`, the handler catches it and
returns a 500 response whose body embeds the exception text in the
`error` field; the handler itself returns normally (`Except.ok`), so the
exception does not propagate. -/
theorem chat_gemini_error (r : String → String → ℚ) (e : String)
    (d : List (String × PyVal)) (m : String)
    (hparse : parse_user_message d = ParseOut.msg m) (hm : m ≠ "")
    (hnomatch : match_predefined_answer r m = Option.none) :
    chat r (some ()) (Except.error e) (some d) =
      Except.ok ⟨500, [("error", "Gemini error: " ++ e)]⟩ := by
  cases d with
  | nil =>
    rw [show parse_user_message [] = ParseOut.noField from rfl] at hparse
    exact ParseOut.noConfusion hparse
  | cons hd tl =>
    show (match parse_user_message (hd :: tl) with
      | ParseOut.raise => Except.error ()
      | ParseOut.noField =>
        Except.ok ⟨400, [("error", "No \x27message\x27 or \x27messages\x27 provided")]⟩
      | ParseOut.msg m =>
        if m = "" then Except.ok ⟨400, [("error", "Empty message provided")]⟩
        else
          match match_predefined_answer r m with
          | some a =>
            if a = "" then chatModel (some ()) (Except.error e)
            else Except.ok ⟨200, [("reply", a)]⟩
          | Option.none => chatModel (some ()) (Except.error e))
        = Except.ok ⟨500, [("error", "Gemini error: " ++ e)]⟩
    rw [hparse]
    show (if m = "" then _ else _) = _
    rw [if_neg hm, hnomatch]
    rfl

/-- Witness for C8: a concrete unmatched message with a configured
client whose call raises `"boom"`. -/
theorem chat_gemini_error_witness :
    chat (fun _ _ => 0) (some ()) (Except.error "boom")
        (some [("message", PyVal.str "what is the weather in Tokyo")]) =
      Except.ok ⟨500, [("error", "Gemini error: boom")]⟩ :=
  chat_gemini_error (fun _ _ => 0) "boom"
    [("message", PyVal.str "what is the weather in Tokyo")]
    "what is the weather in Tokyo" (by decide) (by decide) (by decide)

/-- Every successful result of the model stage carries a single-field
body: either a `reply` or an `error`. -/
theorem chatModel_body (c : Option Unit) (g : Except String PyVal) (resp : ChatResp)
    (h : chatModel c g = Except.ok resp) :
    ∃ s : String, resp.body = [("reply", s)] ∨ resp.body = [("error", s)] := by
  simp only [chatModel] at h
  split at h
  · have hre := Except.ok.inj h
    subst hre
    exact ⟨GEMINI_NOT_CONFIGURED_MSG, Or.inl rfl⟩
  · split at h
    · rename_i e
      have hre := Except.ok.inj h
      subst hre
      exact ⟨"Gemini error: " ++ e, Or.inr rfl⟩
    · have hre := Except.ok.inj h
      subst hre
      exact ⟨_, Or.inl rfl⟩

/-- C9: every JSON response the handler actually returns (it may also
raise, which produces no handler response) carries either a single
`reply` field or a single `error` field, never both. -/
theorem chat_reply_xor_error (r : String → String → ℚ) (client : Option Unit)
    (gen : Except String PyVal) (data : Option (List (String × PyVal))) (resp : ChatResp)
    (h : chat r client gen data = Except.ok resp) :
    ∃ s : String,
      (resp.body = [("reply", s)] ∧ ∀ t, ("error", t) ∉ resp.body) ∨
        (resp.body = [("error", s)] ∧ ∀ t, ("reply", t) ∉ resp.body) := by
  have herr : ∀ s t : String, ("error", t) ∉ [(("reply" : String), s)] := by
    intro s t hmem
    rw [List.mem_singleton, Prod.mk.injEq] at hmem
    exact absurd hmem.1 (by decide)
  have hrep : ∀ s t : String, ("reply", t) ∉ [(("error" : String), s)] := by
    intro s t hmem
    rw [List.mem_singleton, Prod.mk.injEq] at hmem
    exact absurd hmem.1 (by decide)
  have mk1 : ∀ (s : String) (q : ChatResp), q.body = [(("reply" : String), s)] →
      ∃ s : String,
        (q.body = [("reply", s)] ∧ ∀ t, ("error", t) ∉ q.body) ∨
          (q.body = [("error", s)] ∧ ∀ t, ("reply", t) ∉ q.body) := by
    intro s q hb
    exact ⟨s, Or.inl ⟨hb, fun t ht => herr s t (hb ▸ ht)⟩⟩
  have mk2 : ∀ (s : String) (q : ChatResp), q.body = [(("error" : String), s)] →
      ∃ s : String,
        (q.body = [("reply", s)] ∧ ∀ t, ("error", t) ∉ q.body) ∨
          (q.body = [("error", s)] ∧ ∀ t, ("reply", t) ∉ q.body) := by
    intro s q hb
    exact ⟨s, Or.inr ⟨hb, fun t ht => hrep s t (hb ▸ ht)⟩⟩
  unfold chat at h
  split at h
  · have hre := Except.ok.inj h
    subst hre
    exact mk2 "No JSON body provided" _ rfl
  · have hre := Except.ok.inj h
    subst hre
    exact mk2 "No JSON body provided" _ rfl
  · split at h
    · exact Except.noConfusion h
    · have hre := Except.ok.inj h
      subst hre
      exact mk2 "No \x27message\x27 or \x27messages\x27 provided" _ rfl
    · split at h
      · have hre := Except.ok.inj h
        subst hre
        exact mk2 "Empty message provided" _ rfl
      · split at h
        · split at h
          · obtain ⟨s, hs | hs⟩ := chatModel_body _ _ _ h
            · exact mk1 s _ hs
            · exact mk2 s _ hs
          · have hre := Except.ok.inj h
            subst hre
            exact mk1 _ _ rfl
        · obtain ⟨s, hs | hs⟩ := chatModel_body _ _ _ h
          · exact mk1 s _ hs
          · exact mk2 s _ hs

/-- Witness for C9 at a concrete run: the unconfigured-backend success
response carries exactly a `reply` field. -/
theorem chat_reply_xor_error_witness :
    ∃ s : String,
      ((ChatResp.mk 200 [("reply", GEMINI_NOT_CONFIGURED_MSG)]).body = [("reply", s)] ∧
          ∀ t, ("error", t) ∉ (ChatResp.mk 200 [("reply", GEMINI_NOT_CONFIGURED_MSG)]).body) ∨
        ((ChatResp.mk 200 [("reply", GEMINI_NOT_CONFIGURED_MSG)]).body = [("error", s)] ∧
          ∀ t, ("reply", t) ∉ (ChatResp.mk 200 [("reply", GEMINI_NOT_CONFIGURED_MSG)]).body) :=
  chat_reply_xor_error (fun _ _ => 0) Option.none (Except.error "x")
    (some [("message", PyVal.str "what will the weather be")])
    (ChatResp.mk 200 [("reply", GEMINI_NOT_CONFIGURED_MSG)]) rfl

/-- C10: a non-empty JSON object whose `message` field is present but
not a string, and with no `messages` field, fails the
`isinstance(data["message"], str)` test and the `"messages" in data`
test, so the handler reports the missing-field 400 error exactly as if
the field were absent. -/
theorem chat_nonstring_message (r : String → String → ℚ) (client : Option Unit)
    (gen : Except String PyVal) (d : List (String × PyVal)) (v : PyVal)
    (hne : d ≠ [])
    (hmsg : List.lookup "message" d = some v)
    (hnotstr : ∀ s, v ≠ PyVal.str s)
    (hmsgs : List.lookup "messages" d = Option.none) :
    chat r client gen (some d) =
      Except.ok ⟨400, [("error", "No \x27message\x27 or \x27messages\x27 provided")]⟩ := by
  have hparse : parse_user_message d = ParseOut.noField := by
    unfold parse_user_message
    rw [hmsg]
    cases v with
    | str s => exact absurd rfl (hnotstr s)
    | none => rw [hmsgs]
    | int n => rw [hmsgs]
    | list xs => rw [hmsgs]
    | dict e => rw [hmsgs]
    | obj attrs s => rw [hmsgs]
  cases d with
  | nil => exact absurd rfl hne
  | cons hd tl =>
    show (match parse_user_message (hd :: tl) with
      | ParseOut.raise => Except.error ()
      | ParseOut.noField =>
        Except.ok ⟨400, [("error", "No \x27message\x27 or \x27messages\x27 provided")]⟩
      | ParseOut.msg m =>
        if m = "" then Except.ok ⟨400, [("error", "Empty message provided")]⟩
        else
          match match_predefined_answer r m with
          | some a => if a = "" then chatModel client gen else Except.ok ⟨200, [("reply", a)]⟩
          | Option.none => chatModel client gen)
        = Except.ok ⟨400, [("error", "No \x27message\x27 or \x27messages\x27 provided")]⟩
    rw [hparse]

/-- Witness for C10: a body whose `message` holds the number 5. -/
theorem chat_nonstring_message_witness :
    chat (fun _ _ => 0) Option.none (Except.error "x") (some [("message", PyVal.int 5)]) =
      Except.ok ⟨400, [("error", "No \x27message\x27 or \x27messages\x27 provided")]⟩ :=
  chat_nonstring_message (fun _ _ => 0) Option.none (Except.error "x")
    [("message", PyVal.int 5)] (PyVal.int 5)
    (List.cons_ne_nil _ _) rfl (fun _ h => PyVal.noConfusion h) rfl
